import Mathlib

/-
  Verification development for the mcp-remote OAuth coordinator.

  The TypeScript sources are embedded shallowly: pure helpers become Lean
  functions, stateful operations become explicit state-passing functions,
  JavaScript numbers holding millisecond timestamps become `Int`, and
  fallible operations return `Option` or `Except`.  Network access is
  modelled by an oracle argument; each embedded fetch function also returns
  the list of URLs it actually requested, so that "no outbound request is
  issued" is a provable statement.

  Definitions are translated from the repository sources
  (token-refresh-manager / part_004, protected-resource-metadata /
  part_005, authorization-server-metadata.ts, mcp-auth-config.ts).
  A few functions of the repository are absent from the source snapshot
  (only their tests, mocks or callers are present); those definitions carry
  a doc comment starting with `Modelled from the spec:`.
-/

set_option maxHeartbeats 1000000
set_option maxRecDepth 8000

/-- Token timing bookkeeping persisted next to the raw tokens
(`TokenState` in mcp-auth-config).  `expiresAt = none` models a state whose
`expiresAt` field is absent or not a number
(`typeof state.expiresAt !== 'number'`). -/
structure TokenState where
  expiresAt : Option Int := none
  lastRefreshAttempt : Option Int := none
  lastRefreshError : Option String := none
  deriving Repr, DecidableEq

/-- Embeds `isTokenExpiringSoon` (token-refresh-manager, part_004 lines
343-351): no state or non-numeric `expiresAt` is never expiring;
`expiresAt <= now` is expiring; otherwise expiring iff
`expiresAt - now <= leadTimeMs`. -/
def isTokenExpiringSoon (state : Option TokenState) (leadTimeMs : Int) (now : Int) : Bool :=
  match state with
  | none => false
  | some s =>
    match s.expiresAt with
    | none => false
    | some e => if e ≤ now then true else decide (e - now ≤ leadTimeMs)

/-- Stored OAuth token pair (`OAuthTokens`). -/
structure OAuthTokens where
  access_token : String
  refresh_token : Option String := none
  token_type : String := "Bearer"
  expires_in : Option Int := none
  deriving Repr, DecidableEq

/-- Persisted snapshot of connection parameters (`ServerRegistration`).
Only the fields consulted by the refresh path are modelled. -/
structure ServerRegistration where
  serverUrl : String
  deriving Repr, DecidableEq

/-- Cross-process refresh mutual-exclusion marker (`RefreshLock`): owning
process id and absolute expiry time. -/
structure RefreshLock where
  pid : Nat
  expiresAt : Int
  deriving Repr, DecidableEq

/-- Modelled from the spec: `tryAcquireRefreshLock` of mcp-auth-config is
absent from the source snapshot (part_004 imports it, the part_007 tests
mock it).  Spec §3: a RefreshLock carries an owning process id and an
`expires_at`; acquisition fails while an unexpired lock exists and
succeeds otherwise, writing a lock that expires `ttlMs` from now — the
semantics of the part_007 mock, with the owner recorded per the spec's
data model. -/
def tryAcquireRefreshLock (lock : Option RefreshLock) (pid : Nat) (ttlMs now : Int) :
    Bool × Option RefreshLock :=
  match lock with
  | some l => if now < l.expiresAt then (false, some l) else (true, some ⟨pid, now + ttlMs⟩)
  | none => (true, some ⟨pid, now + ttlMs⟩)

/-- Modelled from the spec: `releaseRefreshLock` of mcp-auth-config is
absent from the source snapshot; it unconditionally removes the lock file
for the key (the part_007 mock deletes the entry). -/
def releaseRefreshLock (_lock : Option RefreshLock) : Option RefreshLock := none

/-- The per-server portion of persistent storage consulted by one
`refreshIfNeeded` call. -/
structure RefreshStore where
  registration : Option ServerRegistration := none
  tokens : Option OAuthTokens := none
  tokenState : Option TokenState := none
  lock : Option RefreshLock := none
  deriving Repr, DecidableEq

/-- Outcome of the `refreshAuthorization` grant, supplied as an oracle:
the network either returns new tokens or throws with a message. -/
inductive RefreshOutcome where
  | success (newTokens : OAuthTokens)
  | failure (message : String)
  deriving Repr, DecidableEq

/-- Result of one `refreshIfNeeded` call: the updated store, the updated
in-memory failure-backoff deadline for this key, and whether the
refresh-token grant (a network call) was attempted. -/
structure RefreshResult where
  store : RefreshStore
  backoff : Option Int
  grantAttempted : Bool
  deriving Repr, DecidableEq

/-- Modelled from the spec: `writeTokenState` of mcp-auth-config is absent
from the source snapshot; per the part_007 mock it merges the written
fields into the existing record (absent record treated as empty). -/
def writeTokenState (st : Option TokenState) (attempt : Option Int) (err : Option String) :
    Option TokenState :=
  let base := st.getD {}
  some { base with lastRefreshAttempt := attempt, lastRefreshError := err }

/-- Embeds `TokenRefreshManager.refreshIfNeeded` (part_004 lines 130-224)
as a state-transition function.  A single `now` stands for the wall clock
during the call.  The guards in order: in-memory failure backoff, server
registration present, stored tokens present, `refresh_token` present,
token expiring soon, refresh lock acquired.  The grant outcome is an
oracle; on success the new tokens are saved, the token state's error is
cleared and the backoff entry deleted; on failure the backoff deadline is
set to `now + failureBackoffMs` and the error recorded.  In both cases the
lock is released (the `finally` of lines 221-223). -/
def refreshIfNeeded (pid : Nat) (leadTimeMs lockTtlMs failureBackoffMs : Int)
    (backoff : Option Int) (store : RefreshStore) (now : Int)
    (outcome : RefreshOutcome) : RefreshResult :=
  match backoff with
  | some failureUntil =>
    if now < failureUntil then ⟨store, backoff, false⟩
    else refreshEligible pid leadTimeMs lockTtlMs failureBackoffMs backoff store now outcome
  | none => refreshEligible pid leadTimeMs lockTtlMs failureBackoffMs backoff store now outcome
where
  refreshEligible (pid : Nat) (leadTimeMs lockTtlMs failureBackoffMs : Int)
      (backoff : Option Int) (store : RefreshStore) (now : Int)
      (outcome : RefreshOutcome) : RefreshResult :=
    match store.registration with
    | none => ⟨store, backoff, false⟩
    | some _reg =>
      match store.tokens with
      | none => ⟨store, backoff, false⟩
      | some tok =>
        match tok.refresh_token with
        | none => ⟨store, backoff, false⟩
        | some _rt =>
          if isTokenExpiringSoon store.tokenState leadTimeMs now then
            let acq := tryAcquireRefreshLock store.lock pid lockTtlMs now
            if acq.1 then
              match outcome with
              | .success newTokens =>
                ⟨{ store with
                     tokens := some newTokens,
                     tokenState := writeTokenState store.tokenState (some now) none,
                     lock := releaseRefreshLock acq.2 },
                  none, true⟩
              | .failure msg =>
                ⟨{ store with
                     tokenState := writeTokenState store.tokenState (some now) (some msg),
                     lock := releaseRefreshLock acq.2 },
                  some (now + failureBackoffMs), true⟩
            else ⟨{ store with lock := acq.2 }, backoff, false⟩
          else ⟨store, backoff, false⟩

/-- A per-server slice of the credential store: file basename (after the
server-hash prefix) to file content. -/
def FileSystem : Type := String → Option String

/-- Embeds `readJsonFile` (mcp-auth-config.ts lines 209-226): a missing
file (ENOENT) yields `undefined`, and any read or schema-parse error is
also swallowed into `undefined`. -/
def readJsonFile {α : Type} (fs : FileSystem) (filename : String)
    (parse : String → Option α) : Option α :=
  (fs filename).bind parse

/-- Embeds `readTextFile` (mcp-auth-config.ts lines 252-260): any failure,
including a missing file, throws `new Error(errorMessage)`. -/
def readTextFile (fs : FileSystem) (filename : String) (errorMessage : String) :
    Except String String :=
  match fs filename with
  | some content => .ok content
  | none => .error errorMessage

/-- Embeds `NodeOAuthClientProvider.clientInformation`'s disk read
(part_004 line 454): the client registration record. -/
def readClientRegistration {α : Type} (fs : FileSystem) (parse : String → Option α) : Option α :=
  readJsonFile fs "client_info.json" parse

/-- Embeds `NodeOAuthClientProvider.tokens`'s disk read (part_004
line 499): the token record. -/
def readTokenRecord {α : Type} (fs : FileSystem) (parse : String → Option α) : Option α :=
  readJsonFile fs "tokens.json" parse

/-- Modelled from the spec: `readTokenState` of mcp-auth-config is absent
from the source snapshot; per spec §6 the token state lives in the JSON
file `{serverHash}_token_state.json` and is read through the same JSON
path as the other records. -/
def readTokenStateFile {α : Type} (fs : FileSystem) (parse : String → Option α) : Option α :=
  readJsonFile fs "token_state.json" parse

/-- Modelled from the spec: `readServerRegistration` of mcp-auth-config is
absent from the source snapshot; per spec §6 the server registration lives
in the JSON file `{serverHash}_server.json`. -/
def readServerRegistrationFile {α : Type} (fs : FileSystem) (parse : String → Option α) : Option α :=
  readJsonFile fs "server.json" parse

/-- Embeds `NodeOAuthClientProvider.codeVerifier` (part_004 lines
593-598): the PKCE verifier is read with `readTextFile` and the error
message "No code verifier saved for session". -/
def codeVerifier (fs : FileSystem) : Except String String :=
  readTextFile fs "code_verifier.txt" "No code verifier saved for session"

/-- JS `\w` without the `u` flag: ASCII letters, digits and underscore. -/
def isWordChar (c : Char) : Bool := c.isAlphanum || c = '_'

/-- `[\w-]`, the unquoted-value character class of the parameter regex in
`parseWWWAuthenticateHeader`. -/
def isValueChar (c : Char) : Bool := isWordChar c || c = '-'

/-- ASCII whitespace matched by JS `\s` (the repository only produces
ASCII whitespace in these headers). -/
def isSpaceChar (c : Char) : Bool :=
  c = ' ' || c = '\t' || c = '\n' || c = '\r' || c = '\x0b' || c = '\x0c'

/-- Result of parsing a `WWW-Authenticate` header
(`WWWAuthenticateParams`, protected-resource-metadata.ts lines 29-38). -/
structure WWWAuthenticateParams where
  resourceMetadataUrl : Option String := none
  scope : Option String := none
  error : Option String := none
  errorDescription : Option String := none
  deriving Repr, DecidableEq

/-- The `switch (key)` of protected-resource-metadata.ts lines 68-81: only
the four known keys populate the result. -/
def setAuthParam (r : WWWAuthenticateParams) (key value : String) : WWWAuthenticateParams :=
  if key = "resource_metadata" then { r with resourceMetadataUrl := some value }
  else if key = "scope" then { r with scope := some value }
  else if key = "error" then { r with error := some value }
  else if key = "error_description" then { r with errorDescription := some value }
  else r

/-- `List.span` as a plain recursive function, mirroring the greedy
character classes of the regexes being embedded. -/
def spanChars (p : Char → Bool) : List Char → List Char × List Char
  | [] => ([], [])
  | c :: rest =>
    if p c then
      let s := spanChars p rest
      (c :: s.1, s.2)
    else ([], c :: rest)

/-- The quoted branch `"([^"]*)"`: the characters before the next double
quote and the remainder after it; fails when no closing quote exists. -/
def takeQuoted : List Char → Option (List Char × List Char)
  | [] => none
  | c :: rest =>
    if c = '"' then some ([], rest)
    else
      match takeQuoted rest with
      | some (v, r) => some (c :: v, r)
      | none => none

/-- The value alternation `(?:"([^"]*)"|([\w-]+))` of the parameter
regex: a quoted value (which may be empty) or a non-empty run of `[\w-]`
characters.  A `"` that is never closed fails both alternatives, as in the
regex. -/
def matchValueAt (afterEq : List Char) : Option (String × List Char) :=
  match afterEq with
  | '"' :: q =>
    match takeQuoted q with
    | some (v, rest) => some (⟨v⟩, rest)
    | none => none
  | _ =>
    if (spanChars isValueChar afterEq).1.isEmpty then none
    else some (⟨(spanChars isValueChar afterEq).1⟩, (spanChars isValueChar afterEq).2)

/-- One attempt of the parameter regex `(\w+)=(?:"([^"]*)"|([\w-]+))`
anchored at the head of `s`: the key, the value and the remainder after
the match.  Backtracking inside `\w+` cannot help (a shorter key run still
faces a word character, not `=`), so greedy spans are faithful. -/
def matchParamAt (s : List Char) : Option (String × String × List Char) :=
  if (spanChars isWordChar s).1.isEmpty then none
  else
    match (spanChars isWordChar s).2 with
    | '=' :: afterEq =>
      match matchValueAt afterEq with
      | some (v, rest) => some (⟨(spanChars isWordChar s).1⟩, v, rest)
      | none => none
    | _ => none

/-- The `while ((match = paramRegex.exec(...)))` loop: successive leftmost
matches, restarting one character later when no match starts here.  Fuel
bounds the recursion; `parseWWWAuthenticateHeader` supplies the input
length, which suffices because every step consumes at least one
character. -/
def scanParamsFuel : Nat → List Char → WWWAuthenticateParams → WWWAuthenticateParams
  | 0, _, r => r
  | _ + 1, [], r => r
  | fuel + 1, c :: rest, r =>
    match matchParamAt (c :: rest) with
    | some (k, v, after) => scanParamsFuel fuel after (setAuthParam r k v)
    | none => scanParamsFuel fuel rest r

/-- The prefix strip `header.replace(/^Bearer\s+/i, '')`
(protected-resource-metadata.ts line 57): six case-folded letters followed
by at least one whitespace character, all removed; anything else is left
untouched. -/
def stripBearerTag (l : List Char) : List Char :=
  match l with
  | b :: e :: a :: r :: e2 :: r2 :: rest =>
    if b.toLower == 'b' && e.toLower == 'e' && a.toLower == 'a' && r.toLower == 'r'
        && e2.toLower == 'e' && r2.toLower == 'r' then
      match rest with
      | c :: cs => if isSpaceChar c then cs.dropWhile isSpaceChar else l
      | [] => l
    else l
  | _ => l

/-- Embeds `parseWWWAuthenticateHeader`
(protected-resource-metadata.ts lines 49-91).  Total by construction, as
the source is: it never throws. -/
def parseWWWAuthenticateHeader (header : String) : WWWAuthenticateParams :=
  let stripped := stripBearerTag header.data
  scanParamsFuel stripped.length stripped {}

/-- The scanner applied to a string that needs no prefix handling, used to
state the prefix-stripping property. -/
def scanParamsStr (s : String) : WWWAuthenticateParams :=
  scanParamsFuel s.data.length s.data {}

/-- A parsed absolute URL, reduced to the three components the embedded
code reads from the WHATWG `URL` class: `origin`, `hostname` and
`pathname`. -/
structure Url where
  origin : String
  hostname : String
  pathname : String
  deriving Repr, DecidableEq

/-- Scheme recognition for the URL parser: the repository only builds
http(s) URLs. -/
def schemeSplit (l : List Char) : Option (String × List Char) :=
  if l.take 8 = "https://".data then some ("https", l.drop 8)
  else if l.take 7 = "http://".data then some ("http", l.drop 7)
  else none

/-- The default port elided from a WHATWG origin. -/
def defaultPort (scheme : String) : Nat := if scheme = "https" then 443 else 80

/-- Split on `.` separators, keeping empty components (the behaviour of
the anchored regex groups: an empty group rejects). -/
def splitOnDot : List Char → List (List Char)
  | [] => [[]]
  | c :: rest =>
    if c = '.' then [] :: splitOnDot rest
    else
      match splitOnDot rest with
      | [] => [[c]]
      | p :: ps => (c :: p) :: ps

/-- Decimal value of a digit run (JS `Number` on a `\d+` group). -/
def digitsToNat (l : List Char) : Nat :=
  l.foldl (fun n c => n * 10 + (c.toNat - '0'.toNat)) 0

/-- A WHATWG-style parser for the absolute http(s) URLs the repository
manipulates (lower-cased host, optional decimal port dropped from the
origin when it is the scheme default, path cut at `?`/`#`, empty path
normalised to `/`).  `none` models `new URL(...)` throwing `TypeError:
Invalid URL`.  Userinfo, IPv6 literals and exotic host normalisations are
outside the fragment of inputs exercised here. -/
def parseUrl (s : String) : Option Url :=
  match schemeSplit s.data with
  | none => none
  | some (scheme, rest) =>
    let hp := spanChars (fun c => !(c == '/' || c == '?' || c == '#')) rest
    let hs := spanChars (fun c => !(c == ':')) hp.1
    if hs.1.isEmpty then none
    else
      let host : String := ⟨hs.1.map Char.toLower⟩
      let path := (spanChars (fun c => !(c == '?' || c == '#')) hp.2).1
      let pathname : String := if path.isEmpty then "/" else ⟨path⟩
      match hs.2 with
      | [] => some { origin := scheme ++ "://" ++ host, hostname := host, pathname := pathname }
      | _ :: portChars =>
        if portChars.isEmpty then
          some { origin := scheme ++ "://" ++ host, hostname := host, pathname := pathname }
        else if portChars.all Char.isDigit then
          let port := digitsToNat portChars
          if port = defaultPort scheme then
            some { origin := scheme ++ "://" ++ host, hostname := host, pathname := pathname }
          else
            some { origin := scheme ++ "://" ++ host ++ ":" ++ toString port,
                   hostname := host, pathname := pathname }
        else none

/-- Protected-resource metadata (RFC 9728) restricted to the fields the
embedded code inspects.  `resource = none` models a response whose
`resource` field is missing or not a string. -/
structure ProtectedResourceMetadata where
  resource : Option String := none
  authorization_servers : Option (List String) := none
  scopes_supported : Option (List String) := none
  deriving Repr, DecidableEq

/-- Authorization-server metadata (RFC 8414) restricted to the fields the
embedded code inspects. -/
structure AuthorizationServerMetadata where
  issuer : String := ""
  scopes_supported : Option (List String) := none
  deriving Repr, DecidableEq

/-- What the network returns for one fetched URL: a parsed body, a non-OK
HTTP status, a thrown network/timeout error, or a body whose JSON parse
throws. -/
inductive FetchResult (α : Type) where
  | success (value : α)
  | httpError (status : Nat)
  | networkError (message : String)
  | malformedBody
  deriving Repr, DecidableEq

/-- Embeds `fetchOAuthMetadataJson` (authorization-server-metadata.ts
lines 10-39): every failure mode — non-OK status, thrown fetch, malformed
body — collapses to `undefined`. -/
def fetchOAuthMetadataJson {α : Type} : FetchResult α → Option α
  | .success v => some v
  | .httpError _ => none
  | .networkError _ => none
  | .malformedBody => none

/-- The IPv4 shape test `^(\d+)\.(\d+)\.(\d+)\.(\d+)$` followed by
`Number(...)` on each component (part_005 lines 825-828). -/
def parseIPv4Parts (hostname : String) : Option (Nat × Nat × Nat × Nat) :=
  match splitOnDot hostname.data with
  | [p1, p2, p3, p4] =>
    if (!p1.isEmpty && p1.all Char.isDigit) && (!p2.isEmpty && p2.all Char.isDigit)
        && (!p3.isEmpty && p3.all Char.isDigit) && (!p4.isEmpty && p4.all Char.isDigit) then
      some (digitsToNat p1, digitsToNat p2, digitsToNat p3, digitsToNat p4)
    else none
  | _ => none

/-- Embeds `isInternalIP` (part_005 lines 816-840), applied to
`url.hostname`: the three literal loopback names, then the RFC1918 ranges
10/8, 172.16/12, 192.168/16 and link-local 169.254/16 on dotted-quad
hostnames. -/
def isInternalIP (hostname : String) : Bool :=
  if hostname == "localhost" || hostname == "127.0.0.1" || hostname == "::1" then true
  else
    match parseIPv4Parts hostname with
    | some (a, b, _, _) =>
      (a == 10 || (a == 172 && decide (16 ≤ b) && decide (b ≤ 31)) || (a == 192 && b == 168))
        || (a == 169 && b == 254)
    | none => false

/-- Embeds `getProtectedResourceMetadataUrl` (part_005 lines 797-807). -/
def getProtectedResourceMetadataUrl (u : Url) : String :=
  let resourcePath := if u.pathname ≠ "/" then u.pathname else ""
  u.origin ++ "/.well-known/oauth-protected-resource" ++ resourcePath

/-- Embeds `getMetadataUrl` (authorization-server-metadata.ts lines
83-91). -/
def getMetadataUrl (u : Url) : String :=
  u.origin ++ "/.well-known/oauth-authorization-server"

/-- Embeds `validateProtectedResourceMetadata` (part_005 lines 850-885):
a missing / non-string / falsy `resource` fails; both URLs are parsed (a
parse failure is caught and fails validation); otherwise the two
`origin + pathname` normalisations must be equal. -/
def validateProtectedResourceMetadata (metadata : ProtectedResourceMetadata)
    (expectedResource : String) : Bool :=
  match metadata.resource with
  | none => false
  | some r =>
    if r = "" then false
    else
      match parseUrl r, parseUrl expectedResource with
      | some mu, some eu => (mu.origin ++ mu.pathname) == (eu.origin ++ eu.pathname)
      | _, _ => false

/-- Embeds `fetchProtectedResourceMetadata` (part_005 lines 894-925),
instrumented with the list of URLs actually requested.  `new
URL(resourceUrl)` / `new URL(metadataUrl)` throwing becomes the `.error`
branch (the source constructs these outside any try).  The metadata URL
shares the resource URL's origin, so its hostname is the parsed resource
hostname.  An internal hostname is rejected *before* any request; a
validation failure discards the response after the request. -/
def fetchProtectedResourceMetadata
    (net : String → FetchResult ProtectedResourceMetadata) (resourceUrl : String) :
    Except String (Option ProtectedResourceMetadata × List String) :=
  match parseUrl resourceUrl with
  | none => .error "Invalid URL"
  | some u =>
    let metadataUrl := getProtectedResourceMetadataUrl u
    if isInternalIP u.hostname then .ok (none, [])
    else
      match fetchOAuthMetadataJson (net metadataUrl) with
      | none => .ok (none, [metadataUrl])
      | some m =>
        if validateProtectedResourceMetadata m resourceUrl then .ok (some m, [metadataUrl])
        else .ok (none, [metadataUrl])

/-- Embeds `fetchAuthorizationServerMetadata`
(authorization-server-metadata.ts lines 98-111), instrumented with the
requested URLs.  Note: unlike the protected-resource path, this function
performs no `isInternalIP` check before fetching. -/
def fetchAuthorizationServerMetadata
    (net : String → FetchResult AuthorizationServerMetadata) (serverUrl : String) :
    Except String (Option AuthorizationServerMetadata × List String) :=
  match parseUrl serverUrl with
  | none => .error "Invalid URL"
  | some u =>
    let metadataUrl := getMetadataUrl u
    .ok (fetchOAuthMetadataJson (net metadataUrl), [metadataUrl])

/-- Embeds `fetchAuthorizationServerMetadataFromIssuer`
(authorization-server-metadata.ts lines 120-137): the well-known path is
appended after the issuer's pathname (dropped when it is `/`); no SSRF
check is performed here either. -/
def fetchAuthorizationServerMetadataFromIssuer
    (net : String → FetchResult AuthorizationServerMetadata) (issuerUrl : String) :
    Except String (Option AuthorizationServerMetadata × List String) :=
  match parseUrl issuerUrl with
  | none => .error "Invalid URL"
  | some u =>
    let path := if u.pathname == "/" then "" else u.pathname
    let metadataUrl := u.origin ++ path ++ "/.well-known/oauth-authorization-server"
    .ok (fetchOAuthMetadataJson (net metadataUrl), [metadataUrl])

/-- The `x?.length ? x : undefined` idiom of
authorization-server-metadata.ts lines 176-178 and 206: an empty scope
array is treated as absent. -/
def nonemptyScopes : Option (List String) → Option (List String)
  | some l => if l.isEmpty then none else some l
  | none => none

/-- Discovery source tag of the `OAuthMetadata` bundle. -/
inductive DiscoverySource where
  | protectedResource
  | authorizationServer
  | noneTag
  deriving Repr, DecidableEq

/-- The `OAuthMetadata` bundle returned by `discoverOAuthMetadata`. -/
structure OAuthMetadataBundle where
  protectedResourceMetadata : Option ProtectedResourceMetadata := none
  authorizationServerMetadata : Option AuthorizationServerMetadata := none
  effectiveScopes : Option (List String) := none
  discoverySource : DiscoverySource
  deriving Repr, DecidableEq

/-- The issuer loop of `discoverOAuthMetadata`
(authorization-server-metadata.ts lines 168-192): issuers are tried in
listed order, stopping at the first whose metadata fetch succeeds;
`effectiveScopes` prefers non-empty protected-resource scopes over
non-empty authorization-server scopes. -/
def tryIssuers (net : String → FetchResult AuthorizationServerMetadata)
    (prm : ProtectedResourceMetadata) :
    List String → Except String (Option OAuthMetadataBundle × List String)
  | [] => .ok (none, [])
  | issuerUrl :: rest =>
    match fetchAuthorizationServerMetadataFromIssuer net issuerUrl with
    | .error e => .error e
    | .ok (some asm, reqs) =>
      .ok (some { protectedResourceMetadata := some prm,
                  authorizationServerMetadata := some asm,
                  effectiveScopes :=
                    (nonemptyScopes prm.scopes_supported) <|> (nonemptyScopes asm.scopes_supported),
                  discoverySource := .protectedResource }, reqs)
    | .ok (none, reqs) =>
      match tryIssuers net prm rest with
      | .error e => .error e
      | .ok (res, reqs2) => .ok (res, reqs ++ reqs2)

/-- The stage-2 fallback of `discoverOAuthMetadata`
(authorization-server-metadata.ts lines 200-225): authorization-server
metadata on the resource origin, else the `none`-tagged bundle. -/
def discoverFallback (netA : String → FetchResult AuthorizationServerMetadata)
    (resourceUrl : String) (reqsSoFar : List String) :
    Except String (OAuthMetadataBundle × List String) :=
  match fetchAuthorizationServerMetadata netA resourceUrl with
  | .error e => .error e
  | .ok (some asm, reqs2) =>
    .ok ({ authorizationServerMetadata := some asm,
           effectiveScopes := nonemptyScopes asm.scopes_supported,
           discoverySource := .authorizationServer }, reqsSoFar ++ reqs2)
  | .ok (none, reqs2) =>
    .ok ({ discoverySource := .noneTag }, reqsSoFar ++ reqs2)

/-- Embeds `discoverOAuthMetadata` (authorization-server-metadata.ts lines
150-226): stage 1 protected-resource discovery, issuer loop when
`authorization_servers` is non-empty, stage 2 fallback on the resource
origin, stage 3 the `none`-tagged bundle. -/
def discoverOAuthMetadata (netP : String → FetchResult ProtectedResourceMetadata)
    (netA : String → FetchResult AuthorizationServerMetadata) (resourceUrl : String) :
    Except String (OAuthMetadataBundle × List String) :=
  match fetchProtectedResourceMetadata netP resourceUrl with
  | .error e => .error e
  | .ok (prmOpt, reqs1) =>
    match prmOpt with
    | some prm =>
      match prm.authorization_servers with
      | some issuers =>
        if issuers.isEmpty then discoverFallback netA resourceUrl reqs1
        else
          match tryIssuers netA prm issuers with
          | .error e => .error e
          | .ok (some bundle, reqs2) => .ok (bundle, reqs1 ++ reqs2)
          | .ok (none, reqs2) => discoverFallback netA resourceUrl (reqs1 ++ reqs2)
      | none => discoverFallback netA resourceUrl reqs1
    | none => discoverFallback netA resourceUrl reqs1

/-- JS truthiness on an optional scope string: `undefined` and the empty
string fall through (the guards of part_004 lines 427-432). -/
def scopeOfOptString : Option String → Option String
  | some s => if s = "" then none else some s
  | none => none

/-- JS `Array.prototype.join(' ')`: elements separated by single
spaces. -/
def joinScopes : List String → String
  | [] => ""
  | [s] => s
  | s :: rest => s ++ " " ++ joinScopes rest

/-- A scopes_supported tier: ignored when absent or an empty array,
otherwise the entries joined with single spaces (`.join(' ')`). -/
def scopeOfScopeList : Option (List String) → Option String
  | some l => if l.isEmpty then none else some (joinScopes l)
  | none => none

/-- Tiers 1, 2 and 5 embed `NodeOAuthClientProvider.getEffectiveScope`
(part_004 lines 426-434): a truthy static scope wins, then the truthy
scope remembered from the client-registration response, with the fixed
default "openid email profile".  Modelled from the spec: the two
discovery tiers in between — protected-resource `scopes_supported` then
authorization-server `scopes_supported`, each ignored when the array is
empty and joined with single spaces — follow spec §4.2 step 7; the
oauthMetadata-aware provider carrying them is absent from the source
snapshot (only its tests in part_005 and its caller client.ts are
present). -/
def getEffectiveScope (staticScope registeredScope : Option String)
    (prmScopes asScopes : Option (List String)) : String :=
  match scopeOfOptString staticScope with
  | some s => s
  | none =>
    match scopeOfOptString registeredScope with
    | some s => s
    | none =>
      match scopeOfScopeList prmScopes with
      | some s => s
      | none =>
        match scopeOfScopeList asScopes with
        | some s => s
        | none => "openid email profile"

/-- Outcome of the underlying connection attempt, supplied as an oracle so
that "restored regardless of the call's outcome" quantifies over both. -/
inductive ConnectOutcome where
  | connected
  | connectionError (message : String)
  deriving Repr, DecidableEq

/-- Result of the TLS-configuration phase of `connectToRemoteServer`:
either the fatal conflict (clear message logged, `process.exit` with a
non-zero code) or completion with the underlying outcome. -/
inductive TlsRunResult where
  | fatalConflict
  | completed (outcome : ConnectOutcome)
  deriving Repr, DecidableEq

/-- Observable effect of one `connectToRemoteServer` call on
`NODE_TLS_REJECT_UNAUTHORIZED`: the value while the connection attempt
runs and the value after the call returns or throws. -/
structure TlsRun where
  result : TlsRunResult
  envDuring : Option String
  envAfter : Option String
  deriving Repr, DecidableEq

/-- The environment values that declare certificate validation mandatory
(the conflicts exercised by the part_006 tests, lines 65-115). -/
def strictTlsValue (v : String) : Bool := v == "1" || v == "true"

/-- Modelled from the spec: `connectToRemoteServer` lives in
src/lib/utils.ts, which is absent from the source snapshot (only its
tests, part_006, are).  Spec §4.5/§7: requesting insecure mode while the
environment mandates strict validation is fatal and never silently
resolved; otherwise the relaxed setting ("0") is applied for the duration
of the call and the variable restored afterwards regardless of outcome;
without insecure mode the variable is never touched. -/
def connectToRemoteServer (env : Option String) (insecure : Bool)
    (outcome : ConnectOutcome) : TlsRun :=
  if insecure then
    match env with
    | some v =>
      if strictTlsValue v then ⟨.fatalConflict, some v, some v⟩
      else ⟨.completed outcome, some "0", some v⟩
    | none => ⟨.completed outcome, some "0", none⟩
  else ⟨.completed outcome, env, env⟩

/-- Helper: under the eligibility conditions (registration present, tokens
with a refresh token, expiring soon, lock acquired) `refreshEligible`
reaches the grant and produces the success/failure post-state. -/
theorem refreshEligible_grant_eq (pid : Nat) (lead ttl bMs : Int) (backoff : Option Int)
    (store : RefreshStore) (now : Int) (outcome : RefreshOutcome)
    (hreg : store.registration.isSome = true)
    (htok : ∃ tok rt, store.tokens = some tok ∧ tok.refresh_token = some rt)
    (hexp : isTokenExpiringSoon store.tokenState lead now = true)
    (hlock : (tryAcquireRefreshLock store.lock pid ttl now).1 = true) :
    refreshIfNeeded.refreshEligible pid lead ttl bMs backoff store now outcome =
      match outcome with
      | .success newTokens =>
        ⟨{ store with tokens := some newTokens,
                      tokenState := writeTokenState store.tokenState (some now) none,
                      lock := none }, none, true⟩
      | .failure msg =>
        ⟨{ store with tokenState := writeTokenState store.tokenState (some now) (some msg),
                      lock := none }, some (now + bMs), true⟩ := by
  obtain ⟨reg, hreg'⟩ := Option.isSome_iff_exists.mp hreg
  obtain ⟨tok, rt, htk, hrt⟩ := htok
  unfold refreshIfNeeded.refreshEligible
  simp only [hreg', htk, hrt, hexp, if_true, hlock, releaseRefreshLock]

/-- Helper: every branch of `refreshEligible` that attempts the grant ends
with the lock released. -/
theorem refreshEligible_releases (pid : Nat) (lead ttl bMs : Int) (backoff : Option Int)
    (store : RefreshStore) (now : Int) (outcome : RefreshOutcome) :
    (refreshIfNeeded.refreshEligible pid lead ttl bMs backoff store now outcome).grantAttempted
        = true →
    (refreshIfNeeded.refreshEligible pid lead ttl bMs backoff store now outcome).store.lock
        = none := by
  obtain ⟨sreg, stok, sstate, slock⟩ := store
  unfold refreshIfNeeded.refreshEligible
  rcases sreg with _ | reg
  · simp
  rcases stok with _ | tok
  · simp
  obtain ⟨ta, trt, tty, tei⟩ := tok
  rcases trt with _ | rt
  · simp
  by_cases hexp : isTokenExpiringSoon sstate lead now
  · by_cases hacq : (tryAcquireRefreshLock slock pid ttl now).1 = true
    · cases outcome <;> simp [hexp, hacq, releaseRefreshLock]
    · simp [hexp, hacq]
  · simp [hexp]

/-- Helper: `refreshIfNeeded` releases the lock whenever it attempted the
grant, through either backoff branch. -/
theorem refreshIfNeeded_releases_lock (pid : Nat) (lead ttl bMs : Int) (backoff : Option Int)
    (store : RefreshStore) (now : Int) (outcome : RefreshOutcome) :
    (refreshIfNeeded pid lead ttl bMs backoff store now outcome).grantAttempted = true →
    (refreshIfNeeded pid lead ttl bMs backoff store now outcome).store.lock = none := by
  unfold refreshIfNeeded
  rcases backoff with _ | d
  · exact refreshEligible_releases pid lead ttl bMs none store now outcome
  · by_cases hn : now < d
    · simp [hn]
    · simp only [hn, if_false, if_neg hn]
      exact refreshEligible_releases pid lead ttl bMs (some d) store now outcome

/-- C5: the expiring-soon classification.  With no state or unknown
`expiresAt` it is false; with `expiresAt <= now` it is true; with
`expiresAt = now + leadTime - 1` it is true; with
`expiresAt = now + leadTime + 1` (and a non-negative lead time) it is
false. -/
theorem c5_token_expiry_classification :
    ∀ (leadTimeMs now : Int),
      (isTokenExpiringSoon none leadTimeMs now = false) ∧
      (∀ s : TokenState, s.expiresAt = none →
        isTokenExpiringSoon (some s) leadTimeMs now = false) ∧
      (∀ (s : TokenState) (e : Int), s.expiresAt = some e → e ≤ now →
        isTokenExpiringSoon (some s) leadTimeMs now = true) ∧
      (∀ s : TokenState, s.expiresAt = some (now + leadTimeMs - 1) →
        isTokenExpiringSoon (some s) leadTimeMs now = true) ∧
      (0 ≤ leadTimeMs → ∀ s : TokenState, s.expiresAt = some (now + leadTimeMs + 1) →
        isTokenExpiringSoon (some s) leadTimeMs now = false) := by
  intro lead now
  refine ⟨rfl, ?_, ?_, ?_, ?_⟩
  · intro s h
    simp [isTokenExpiringSoon, h]
  · intro s e h he
    simp [isTokenExpiringSoon, h, he]
  · intro s h
    simp only [isTokenExpiringSoon, h]
    split
    · rfl
    · simp only [decide_eq_true_eq]
      omega
  · intro hl s h
    simp only [isTokenExpiringSoon, h]
    split
    · omega
    · simp only [decide_eq_false_iff_not]
      omega

/-- C5 witness: at `now = 1000`, `leadTime = 600`, expiry `1599` is
expiring soon and expiry `1601` is not. -/
theorem c5_witness :
    isTokenExpiringSoon (some { expiresAt := some 1599 }) 600 1000 = true ∧
    isTokenExpiringSoon (some { expiresAt := some 1601 }) 600 1000 = false := by
  have h := c5_token_expiry_classification 600 1000
  exact ⟨h.2.2.2.1 { expiresAt := some 1599 } (by norm_num),
         h.2.2.2.2 (by norm_num) { expiresAt := some 1601 } (by norm_num)⟩

/-- C4: refresh-lock mutual exclusion.  Acquisition with no lock on file
succeeds and stamps the owner and `now + ttl`; a second acquisition by any
process (in particular a different owner) strictly before the expiry
fails and leaves the original lock in place; once the TTL has elapsed a
new owner's acquisition succeeds; and `refreshIfNeeded` ends with the lock
released whenever it attempted a refresh, whichever way the grant went.
The model keeps at most one lock per ServerKey by construction (an
`Option RefreshLock` field), matching the invariant. -/
theorem c4_refresh_lock_exclusion :
    (∀ (pid : Nat) (ttlMs now : Int),
      tryAcquireRefreshLock none pid ttlMs now = (true, some ⟨pid, now + ttlMs⟩)) ∧
    (∀ (a b : Nat) (ttlB expiry now : Int), now < expiry →
      tryAcquireRefreshLock (some ⟨a, expiry⟩) b ttlB now = (false, some ⟨a, expiry⟩)) ∧
    (∀ (a b : Nat) (ttlB expiry now : Int), expiry ≤ now →
      tryAcquireRefreshLock (some ⟨a, expiry⟩) b ttlB now = (true, some ⟨b, now + ttlB⟩)) ∧
    (∀ (pid : Nat) (leadTimeMs lockTtlMs failureBackoffMs : Int) (backoff : Option Int)
       (store : RefreshStore) (now : Int) (outcome : RefreshOutcome),
      (refreshIfNeeded pid leadTimeMs lockTtlMs failureBackoffMs backoff store now
          outcome).grantAttempted = true →
      (refreshIfNeeded pid leadTimeMs lockTtlMs failureBackoffMs backoff store now
          outcome).store.lock = none) := by
  refine ⟨fun _ _ _ => rfl, ?_, ?_, ?_⟩
  · intro a b ttlB expiry now h
    simp [tryAcquireRefreshLock, h]
  · intro a b ttlB expiry now h
    simp [tryAcquireRefreshLock, h, not_lt.mpr h]
  · intro pid lead ttl bMs backoff store now outcome
    exact refreshIfNeeded_releases_lock pid lead ttl bMs backoff store now outcome

/-- C4 witness: with a 120000 ms TTL, owner 1 acquires at time 0; owner 2
fails at time 60000 and succeeds at time 120000; a concrete successful
refresh run ends with the lock released. -/
theorem c4_witness :
    tryAcquireRefreshLock none 1 120000 0 = (true, some ⟨1, 0 + 120000⟩) ∧
    tryAcquireRefreshLock (some ⟨1, 120000⟩) 2 120000 60000 = (false, some ⟨1, 120000⟩) ∧
    tryAcquireRefreshLock (some ⟨1, 120000⟩) 2 120000 120000 = (true, some ⟨2, 120000 + 120000⟩) ∧
    (refreshIfNeeded 1 600000 120000 300000 none
        { registration := some ⟨"https://remote.example/sse"⟩,
          tokens := some { access_token := "old", refresh_token := some "r1" },
          tokenState := some { expiresAt := some 30000 },
          lock := none } 0
        (.success { access_token := "new", refresh_token := some "r1" })).store.lock = none := by
  have h := c4_refresh_lock_exclusion
  refine ⟨h.1 1 120000 0, h.2.1 1 2 120000 120000 60000 (by norm_num),
          h.2.2.1 1 2 120000 120000 120000 (by norm_num), ?_⟩
  exact h.2.2.2 1 600000 120000 300000 none _ 0 _ (by decide)

/-- C7: the failure-backoff protocol of `refreshIfNeeded`.  Under the
eligibility conditions: a throwing grant records `lastRefreshError` and
`lastRefreshAttempt` in the token state and sets the in-memory backoff
deadline to `now + failureBackoffMs`; every scan strictly before the
deadline performs no grant and changes nothing; a scan at or after the
deadline attempts the grant again, and a successful grant persists the new
tokens, clears the recorded error and deletes the backoff entry. -/
theorem c7_refresh_failure_backoff :
    ∀ (pid : Nat) (leadTimeMs lockTtlMs failureBackoffMs : Int) (store : RefreshStore)
      (now : Int) (msg : String),
      store.registration.isSome = true →
      (∃ tok rt, store.tokens = some tok ∧ tok.refresh_token = some rt) →
      isTokenExpiringSoon store.tokenState leadTimeMs now = true →
      (tryAcquireRefreshLock store.lock pid lockTtlMs now).1 = true →
      ((refreshIfNeeded pid leadTimeMs lockTtlMs failureBackoffMs none store now
            (.failure msg)).grantAttempted = true ∧
       (refreshIfNeeded pid leadTimeMs lockTtlMs failureBackoffMs none store now
            (.failure msg)).backoff = some (now + failureBackoffMs) ∧
       (∃ st, (refreshIfNeeded pid leadTimeMs lockTtlMs failureBackoffMs none store now
                  (.failure msg)).store.tokenState = some st ∧
              st.lastRefreshError = some msg ∧ st.lastRefreshAttempt = some now)) ∧
      (∀ (deadline now2 : Int) (store2 : RefreshStore) (outcome : RefreshOutcome),
        now2 < deadline →
        refreshIfNeeded pid leadTimeMs lockTtlMs failureBackoffMs (some deadline) store2 now2
            outcome = ⟨store2, some deadline, false⟩) ∧
      (∀ (deadline : Int) (newTokens : OAuthTokens), deadline ≤ now →
        ((refreshIfNeeded pid leadTimeMs lockTtlMs failureBackoffMs (some deadline) store now
              (.success newTokens)).grantAttempted = true ∧
         (refreshIfNeeded pid leadTimeMs lockTtlMs failureBackoffMs (some deadline) store now
              (.success newTokens)).store.tokens = some newTokens ∧
         (refreshIfNeeded pid leadTimeMs lockTtlMs failureBackoffMs (some deadline) store now
              (.success newTokens)).backoff = none ∧
         (∃ st, (refreshIfNeeded pid leadTimeMs lockTtlMs failureBackoffMs (some deadline) store
                    now (.success newTokens)).store.tokenState = some st ∧
                st.lastRefreshError = none ∧ st.lastRefreshAttempt = some now))) := by
  intro pid lead ttl bMs store now msg hreg htok hexp hlock
  have hfail := refreshEligible_grant_eq pid lead ttl bMs none store now (.failure msg)
    hreg htok hexp hlock
  refine ⟨?_, ?_, ?_⟩
  · have heq : refreshIfNeeded pid lead ttl bMs none store now (.failure msg)
        = refreshIfNeeded.refreshEligible pid lead ttl bMs none store now (.failure msg) := rfl
    rw [heq, hfail]
    exact ⟨rfl, rfl, _, rfl, rfl, rfl⟩
  · intro deadline now2 store2 outcome h
    unfold refreshIfNeeded
    simp [h]
  · intro deadline newTokens h
    have hsucc := refreshEligible_grant_eq pid lead ttl bMs (some deadline) store now
      (.success newTokens) hreg htok hexp hlock
    have heq : refreshIfNeeded pid lead ttl bMs (some deadline) store now (.success newTokens)
        = refreshIfNeeded.refreshEligible pid lead ttl bMs (some deadline) store now
            (.success newTokens) := by
      unfold refreshIfNeeded
      simp [not_lt.mpr h]
    rw [heq, hsucc]
    exact ⟨rfl, rfl, rfl, _, rfl, rfl, rfl⟩

/-- C7 witness: a concrete server entry whose refresh first fails with
"refresh failed", is then skipped inside the backoff window, and finally
succeeds after the window, clearing the error. -/
theorem c7_witness :
    ((refreshIfNeeded 1 60000 120000 60000 none
        { registration := some ⟨"https://remote.example/sse"⟩,
          tokens := some { access_token := "old", refresh_token := some "rb" },
          tokenState := some { expiresAt := some 10000 },
          lock := none } 0 (.failure "refresh failed")).backoff = some (0 + 60000)) ∧
    (refreshIfNeeded 1 60000 120000 60000 (some 60000)
        { registration := some ⟨"https://remote.example/sse"⟩,
          tokens := some { access_token := "old", refresh_token := some "rb" },
          tokenState := some { expiresAt := some 10000 },
          lock := none } 30000 (.failure "refresh failed")
      = ⟨{ registration := some ⟨"https://remote.example/sse"⟩,
           tokens := some { access_token := "old", refresh_token := some "rb" },
           tokenState := some { expiresAt := some 10000 },
           lock := none }, some 60000, false⟩) ∧
    ((refreshIfNeeded 1 60000 120000 60000 (some 60000)
        { registration := some ⟨"https://remote.example/sse"⟩,
          tokens := some { access_token := "old", refresh_token := some "rb" },
          tokenState := some { expiresAt := some 10000 },
          lock := none } 120000
        (.success { access_token := "new", refresh_token := some "rb" })).store.tokens
      = some { access_token := "new", refresh_token := some "rb" }) := by
  have h1 := c7_refresh_failure_backoff 1 60000 120000 60000
    { registration := some ⟨"https://remote.example/sse"⟩,
      tokens := some { access_token := "old", refresh_token := some "rb" },
      tokenState := some { expiresAt := some 10000 },
      lock := none } 0 "refresh failed" (by decide)
    ⟨_, "rb", rfl, rfl⟩ (by decide) (by decide)
  have h2 := c7_refresh_failure_backoff 1 60000 120000 60000
    { registration := some ⟨"https://remote.example/sse"⟩,
      tokens := some { access_token := "old", refresh_token := some "rb" },
      tokenState := some { expiresAt := some 10000 },
      lock := none } 120000 "refresh failed" (by decide)
    ⟨_, "rb", rfl, rfl⟩ (by decide) (by decide)
  exact ⟨h1.1.2.1, h1.2.1 60000 30000 _ _ (by norm_num),
         (h2.2.2 60000 { access_token := "new", refresh_token := some "rb" }
           (by norm_num)).2.1⟩

/-- C8 counterexample: the PKCE verifier is read through `readTextFile`,
which throws (rather than returning an absent result) when no file
exists — here on the empty store it raises the error "No code verifier
saved for session", contradicting the claim for the PKCE-verifier record
kind. -/
theorem c8_counterexample :
    codeVerifier (fun _ => none) = Except.error "No code verifier saved for session" := rfl

/-- C8 amended: the JSON-backed record kinds — client registration,
tokens, token state, server registration — return an absent result (not
an error) when their file does not exist; the PKCE verifier, read through
`readTextFile`, instead raises an error (see the counterexample). -/
theorem c8_json_reads_absent :
    ∀ {α : Type} (fs : FileSystem) (parse : String → Option α),
      (fs "client_info.json" = none → readClientRegistration fs parse = none) ∧
      (fs "tokens.json" = none → readTokenRecord fs parse = none) ∧
      (fs "token_state.json" = none → readTokenStateFile fs parse = none) ∧
      (fs "server.json" = none → readServerRegistrationFile fs parse = none) := by
  intro α fs parse
  refine ⟨?_, ?_, ?_, ?_⟩ <;> intro h <;>
    simp [readClientRegistration, readTokenRecord, readTokenStateFile,
      readServerRegistrationFile, readJsonFile, h]

/-- C8 witness: on the empty store every JSON-backed record kind reads as
absent. -/
theorem c8_witness :
    readClientRegistration (fun _ => none) (fun s => some s) = none ∧
    readTokenRecord (fun _ => none) (fun s => some s) = none ∧
    readTokenStateFile (fun _ => none) (fun s => some s) = none ∧
    readServerRegistrationFile (fun _ => none) (fun s => some s) = none := by
  have h := c8_json_reads_absent (fun _ => none) (fun s => some s)
  exact ⟨h.1 rfl, h.2.1 rfl, h.2.2.1 rfl, h.2.2.2 rfl⟩

/-- Helper: `spanChars` splits its input. -/
theorem spanChars_append (p : Char → Bool) (l : List Char) :
    (spanChars p l).1 ++ (spanChars p l).2 = l := by
  induction l with
  | nil => rfl
  | cons c t ih =>
    by_cases h : p c <;> simp [spanChars, h, ih]

/-- Helper: the remainder of `spanChars` is no longer than the input. -/
theorem spanChars_snd_le (p : Char → Bool) (l : List Char) :
    (spanChars p l).2.length ≤ l.length := by
  have h := congrArg List.length (spanChars_append p l)
  simp only [List.length_append] at h
  omega

/-- Helper: a successful quoted-value match consumes at least the closing
quote. -/
theorem takeQuoted_length {l v r : List Char} (h : takeQuoted l = some (v, r)) :
    r.length < l.length := by
  induction l generalizing v r with
  | nil => simp [takeQuoted] at h
  | cons c t ih =>
    by_cases hc : c = '"'
    · simp only [takeQuoted, if_pos hc, Option.some.injEq, Prod.mk.injEq] at h
      obtain ⟨_, hr⟩ := h
      subst hr
      simp
    · simp only [takeQuoted, if_neg hc] at h
      rcases ht : takeQuoted t with _ | ⟨v2, r2⟩
      · rw [ht] at h
        simp at h
      · rw [ht] at h
        simp only [Option.some.injEq, Prod.mk.injEq] at h
        obtain ⟨_, hr⟩ := h
        subst hr
        have := ih ht
        simp only [List.length_cons]
        omega

/-- Helper: a successful value match consumes no more than the input. -/
theorem matchValueAt_le {afterEq : List Char} {v : String} {rest : List Char}
    (h : matchValueAt afterEq = some (v, rest)) : rest.length ≤ afterEq.length := by
  unfold matchValueAt at h
  split at h
  · rename_i q
    split at h
    · rename_i v2 r2 hq
      simp only [Option.some.injEq, Prod.mk.injEq] at h
      obtain ⟨_, hr⟩ := h
      subst hr
      have := takeQuoted_length hq
      simp only [List.length_cons]
      omega
    · simp at h
  · split at h
    · simp at h
    · simp only [Option.some.injEq, Prod.mk.injEq] at h
      obtain ⟨_, hr⟩ := h
      subst hr
      exact spanChars_snd_le _ _

/-- Helper: a successful parameter match consumes at least one
character. -/
theorem matchParamAt_length {s : List Char} {k v : String} {after : List Char}
    (h : matchParamAt s = some (k, v, after)) : after.length < s.length := by
  unfold matchParamAt at h
  split at h
  · simp at h
  · rename_i hkey
    have hsplit := congrArg List.length (spanChars_append isWordChar s)
    simp only [List.length_append] at hsplit
    have hkeylen : 1 ≤ (spanChars isWordChar s).1.length := by
      rcases hk : (spanChars isWordChar s).1 with _ | _
      · exact absurd (by simp [hk]) hkey
      · simp
    split at h
    · rename_i afterEq heq
      split at h
      · rename_i v2 r2 hv
        simp only [Option.some.injEq, Prod.mk.injEq] at h
        obtain ⟨_, _, hr⟩ := h
        subst hr
        have hle := matchValueAt_le hv
        have : afterEq.length + 1 = (spanChars isWordChar s).2.length := by
          rw [heq]
          simp
        omega
      · simp at h
    · simp at h

/-- Helper: no parameter match begins at a non-word character. -/
theorem matchParamAt_not_word {c : Char} {t : List Char} (hc : isWordChar c = false) :
    matchParamAt (c :: t) = none := by
  unfold matchParamAt
  simp [spanChars, hc]

/-- Helper: `scanParamsFuel` does not depend on the fuel once the fuel
covers the input length. -/
theorem scanParamsFuel_eq_of_le (f1 : Nat) :
    ∀ (f2 : Nat) (s : List Char) (r : WWWAuthenticateParams),
      s.length ≤ f1 → s.length ≤ f2 →
      scanParamsFuel f1 s r = scanParamsFuel f2 s r := by
  induction f1 with
  | zero =>
    intro f2 s r h1 _
    have : s = [] := List.length_eq_zero.mp (Nat.le_zero.mp h1)
    subst this
    cases f2 <;> rfl
  | succ f ih =>
    intro f2 s r h1 h2
    cases s with
    | nil => cases f2 <;> rfl
    | cons c rest =>
      cases f2 with
      | zero => simp at h2
      | succ g =>
        simp only [scanParamsFuel]
        cases h : matchParamAt (c :: rest) with
        | none =>
          simp only [List.length_cons] at h1 h2
          exact ih g rest r (by omega) (by omega)
        | some kv =>
          obtain ⟨k, v, after⟩ := kv
          have := matchParamAt_length h
          simp only [List.length_cons] at h1 h2 this
          exact ih g after (setAuthParam r k v) (by omega) (by omega)

/-- Helper: a non-word head character is skipped by the scanner. -/
theorem scanParamsFuel_cons_not_word (fuel : Nat) {c : Char} (t : List Char)
    (r : WWWAuthenticateParams) (hc : isWordChar c = false) :
    scanParamsFuel (fuel + 1) (c :: t) r = scanParamsFuel fuel t r := by
  simp [scanParamsFuel, matchParamAt_not_word hc]

/-- Helper: whitespace characters are not word characters. -/
theorem isSpaceChar_not_word {c : Char} (h : isSpaceChar c = true) : isWordChar c = false := by
  simp only [isSpaceChar, Bool.or_eq_true, decide_eq_true_eq] at h
  rcases h with ((((h | h) | h) | h) | h) | h <;> subst h <;> decide

/-- Helper: leading whitespace does not affect the scan. -/
theorem scanParamsFuel_dropWhile_spaces (l : List Char) (r : WWWAuthenticateParams) :
    scanParamsFuel (l.dropWhile isSpaceChar).length (l.dropWhile isSpaceChar) r
      = scanParamsFuel l.length l r := by
  induction l with
  | nil => rfl
  | cons c t ih =>
    by_cases hc : isSpaceChar c
    · rw [List.dropWhile_cons_of_pos hc, ih, List.length_cons,
        scanParamsFuel_cons_not_word t.length t r (isSpaceChar_not_word hc)]
    · rw [List.dropWhile_cons_of_neg (by simp [hc])]

/-- Helper: the uppercase-B spelling of the prefix is stripped. -/
theorem stripBearerTag_upper (l : List Char) :
    stripBearerTag ('B' :: 'e' :: 'a' :: 'r' :: 'e' :: 'r' :: ' ' :: l)
      = l.dropWhile isSpaceChar := rfl

/-- Helper: a mixed-case spelling of the prefix is stripped as well. -/
theorem stripBearerTag_mixed (l : List Char) :
    stripBearerTag ('b' :: 'E' :: 'A' :: 'R' :: 'e' :: 'r' :: ' ' :: l)
      = l.dropWhile isSpaceChar := rfl

/-- C10: `parseWWWAuthenticateHeader` is total by construction (a Lean
function on all strings).  A leading "Bearer " prefix — in any letter case
— is stripped and the remainder scanned, and the prefix is not required;
the empty header yields a result with all four fields absent; quoted
(`key="value"`) and unquoted (`key=value`) parameters are both
recognised; and only the keys resource_metadata, scope, error and
error_description populate the result. -/
theorem c10_parse_www_authenticate :
    (∀ s : String, parseWWWAuthenticateHeader ("Bearer " ++ s) = scanParamsStr s) ∧
    (∀ s : String, parseWWWAuthenticateHeader ("bEARer " ++ s) = scanParamsStr s) ∧
    parseWWWAuthenticateHeader "" =
      { resourceMetadataUrl := none, scope := none, error := none, errorDescription := none } ∧
    parseWWWAuthenticateHeader "scope=abc" = { scope := some "abc" } ∧
    parseWWWAuthenticateHeader
        "Bearer error=\"invalid_request\", error_description=\"No access token\", resource_metadata=\"https://example.com/.well-known/oauth-protected-resource\"" =
      { resourceMetadataUrl := some "https://example.com/.well-known/oauth-protected-resource",
        error := some "invalid_request", errorDescription := some "No access token" } ∧
    parseWWWAuthenticateHeader "Bearer scope=read-write" = { scope := some "read-write" } ∧
    parseWWWAuthenticateHeader "realm=\"mcp\", foo=bar" =
      { resourceMetadataUrl := none, scope := none, error := none, errorDescription := none } := by
  refine ⟨?_, ?_, by decide, by decide, by decide, by decide, by decide⟩
  · intro s
    show scanParamsFuel (stripBearerTag ("Bearer " ++ s).data).length
        (stripBearerTag ("Bearer " ++ s).data) {} = _
    have hd : ("Bearer " ++ s).data = 'B' :: 'e' :: 'a' :: 'r' :: 'e' :: 'r' :: ' ' :: s.data :=
      rfl
    rw [hd, stripBearerTag_upper]
    exact scanParamsFuel_dropWhile_spaces s.data {}
  · intro s
    show scanParamsFuel (stripBearerTag ("bEARer " ++ s).data).length
        (stripBearerTag ("bEARer " ++ s).data) {} = _
    have hd : ("bEARer " ++ s).data = 'b' :: 'E' :: 'A' :: 'R' :: 'e' :: 'r' :: ' ' :: s.data :=
      rfl
    rw [hd, stripBearerTag_mixed]
    exact scanParamsFuel_dropWhile_spaces s.data {}

/-- C2 counterexample: the claim covers *every* outbound metadata fetch,
but `fetchAuthorizationServerMetadata` performs no SSRF check: for the
RFC1918 target 10.0.0.1 it still issues the request (the request list is
non-empty) even though `isInternalIP` classifies the hostname as
internal. -/
theorem c2_counterexample :
    fetchAuthorizationServerMetadata (fun _ => .networkError "refused") "https://10.0.0.1/mcp"
      = .ok (none, ["https://10.0.0.1/.well-known/oauth-authorization-server"]) ∧
    isInternalIP "10.0.0.1" = true :=
  ⟨rfl, rfl⟩

/-- C2 amended: the SSRF filter classifies exactly the claim's targets as
internal (8.8.8.8 is public), and it guards protected-resource metadata
fetches: an internal target produces no request at all and an undefined
result, while a public target produces the normal single request and, on a
valid response, the metadata. -/
theorem c2_ssrf_filter_amended :
    (isInternalIP "localhost" = true ∧ isInternalIP "127.0.0.1" = true ∧
     isInternalIP "::1" = true ∧ isInternalIP "10.0.0.1" = true ∧
     isInternalIP "172.16.0.1" = true ∧ isInternalIP "172.31.255.255" = true ∧
     isInternalIP "192.168.1.1" = true ∧ isInternalIP "169.254.169.254" = true ∧
     isInternalIP "8.8.8.8" = false) ∧
    (∀ (net : String → FetchResult ProtectedResourceMetadata) (s : String) (u : Url),
      parseUrl s = some u → isInternalIP u.hostname = true →
      fetchProtectedResourceMetadata net s = .ok (none, [])) ∧
    (∀ (net : String → FetchResult ProtectedResourceMetadata) (s : String) (u : Url)
       (m : ProtectedResourceMetadata),
      parseUrl s = some u → isInternalIP u.hostname = false →
      net (getProtectedResourceMetadataUrl u) = .success m →
      validateProtectedResourceMetadata m s = true →
      fetchProtectedResourceMetadata net s
        = .ok (some m, [getProtectedResourceMetadataUrl u])) := by
  refine ⟨by decide, ?_, ?_⟩
  · intro net s u hp hi
    unfold fetchProtectedResourceMetadata
    simp [hp, hi]
  · intro net s u m hp hi hn hv
    unfold fetchProtectedResourceMetadata
    simp [hp, hi, hn, fetchOAuthMetadataJson, hv]

/-- C2 witness: 127.0.0.1 is blocked before any request; 8.8.8.8 produces
the normal request and result. -/
theorem c2_witness :
    fetchProtectedResourceMetadata (fun _ => .networkError "refused")
        "http://127.0.0.1/resource" = .ok (none, []) ∧
    fetchProtectedResourceMetadata
        (fun _ => .success { resource := some "https://8.8.8.8/resource" })
        "https://8.8.8.8/resource"
      = .ok (some { resource := some "https://8.8.8.8/resource" },
             ["https://8.8.8.8/.well-known/oauth-protected-resource/resource"]) := by
  have h := c2_ssrf_filter_amended
  constructor
  · exact h.2.1 (fun _ => .networkError "refused") "http://127.0.0.1/resource"
      { origin := "http://127.0.0.1", hostname := "127.0.0.1", pathname := "/resource" }
      (by decide) (by decide)
  · exact h.2.2 (fun _ => .success { resource := some "https://8.8.8.8/resource" })
      "https://8.8.8.8/resource"
      { origin := "https://8.8.8.8", hostname := "8.8.8.8", pathname := "/resource" }
      { resource := some "https://8.8.8.8/resource" }
      (by decide) (by decide) rfl (by decide)

/-- C3: validation of protected-resource metadata.  A missing `resource`
field fails; an unparseable `resource` URL fails; a parse that differs
from the request URL under origin+pathname normalisation fails; equality
under that normalisation passes.  During discovery, a fetched response
failing validation is discarded (undefined result) even though the
request was made, and a response passing validation is accepted. -/
theorem c3_resource_validation :
    (∀ (m : ProtectedResourceMetadata) (r : String), m.resource = none →
      validateProtectedResourceMetadata m r = false) ∧
    (∀ (m : ProtectedResourceMetadata) (rStr r : String), m.resource = some rStr →
      parseUrl rStr = none → validateProtectedResourceMetadata m r = false) ∧
    (∀ (m : ProtectedResourceMetadata) (rStr r : String) (mu eu : Url),
      m.resource = some rStr → rStr ≠ "" → parseUrl rStr = some mu → parseUrl r = some eu →
      mu.origin ++ mu.pathname ≠ eu.origin ++ eu.pathname →
      validateProtectedResourceMetadata m r = false) ∧
    (∀ (m : ProtectedResourceMetadata) (rStr r : String) (mu eu : Url),
      m.resource = some rStr → rStr ≠ "" → parseUrl rStr = some mu → parseUrl r = some eu →
      mu.origin ++ mu.pathname = eu.origin ++ eu.pathname →
      validateProtectedResourceMetadata m r = true) ∧
    (∀ (net : String → FetchResult ProtectedResourceMetadata) (s : String) (u : Url)
       (m : ProtectedResourceMetadata),
      parseUrl s = some u → isInternalIP u.hostname = false →
      net (getProtectedResourceMetadataUrl u) = .success m →
      validateProtectedResourceMetadata m s = false →
      fetchProtectedResourceMetadata net s = .ok (none, [getProtectedResourceMetadataUrl u])) ∧
    (∀ (net : String → FetchResult ProtectedResourceMetadata) (s : String) (u : Url)
       (m : ProtectedResourceMetadata),
      parseUrl s = some u → isInternalIP u.hostname = false →
      net (getProtectedResourceMetadataUrl u) = .success m →
      validateProtectedResourceMetadata m s = true →
      fetchProtectedResourceMetadata net s
        = .ok (some m, [getProtectedResourceMetadataUrl u])) := by
  refine ⟨?_, ?_, ?_, ?_, ?_, ?_⟩
  · intro m r h
    simp [validateProtectedResourceMetadata, h]
  · intro m rStr r h hp
    unfold validateProtectedResourceMetadata
    by_cases h0 : rStr = "" <;> simp [h, h0, hp]
  · intro m rStr r mu eu h h0 hm he hne
    unfold validateProtectedResourceMetadata
    simp [h, h0, hm, he, hne]
  · intro m rStr r mu eu h h0 hm he heq
    unfold validateProtectedResourceMetadata
    simp [h, h0, hm, he, heq]
  · intro net s u m hp hi hn hv
    unfold fetchProtectedResourceMetadata
    simp [hp, hi, hn, fetchOAuthMetadataJson, hv]
  · intro net s u m hp hi hn hv
    unfold fetchProtectedResourceMetadata
    simp [hp, hi, hn, fetchOAuthMetadataJson, hv]

/-- C3 witness: a mismatching `resource` field is rejected and discards
the response during discovery; the matching response (with query ignored
under origin+path normalisation) is accepted. -/
theorem c3_witness :
    validateProtectedResourceMetadata { resource := some "https://different.com/api" }
        "https://example.com/api" = false ∧
    validateProtectedResourceMetadata { resource := some "https://example.com/api" }
        "https://example.com/api?param=value" = true ∧
    validateProtectedResourceMetadata { resource := none } "https://example.com/api" = false ∧
    validateProtectedResourceMetadata { resource := some "not-a-valid-url" }
        "https://example.com/api" = false ∧
    fetchProtectedResourceMetadata
        (fun _ => .success { resource := some "https://different.com/api" })
        "https://example.com/api"
      = .ok (none, ["https://example.com/.well-known/oauth-protected-resource/api"]) := by
  have h := c3_resource_validation
  refine ⟨?_, ?_, ?_, ?_, ?_⟩
  · exact h.2.2.1 { resource := some "https://different.com/api" }
      "https://different.com/api" "https://example.com/api"
      { origin := "https://different.com", hostname := "different.com", pathname := "/api" }
      { origin := "https://example.com", hostname := "example.com", pathname := "/api" }
      rfl (by decide) (by decide) (by decide) (by decide)
  · exact h.2.2.2.1 { resource := some "https://example.com/api" }
      "https://example.com/api" "https://example.com/api?param=value"
      { origin := "https://example.com", hostname := "example.com", pathname := "/api" }
      { origin := "https://example.com", hostname := "example.com", pathname := "/api" }
      rfl (by decide) (by decide) (by decide) rfl
  · exact h.1 { resource := none } "https://example.com/api" rfl
  · exact h.2.1 { resource := some "not-a-valid-url" } "not-a-valid-url"
      "https://example.com/api" rfl (by decide)
  · exact h.2.2.2.2.1 (fun _ => .success { resource := some "https://different.com/api" })
      "https://example.com/api"
      { origin := "https://example.com", hostname := "example.com", pathname := "/api" }
      { resource := some "https://different.com/api" }
      (by decide) (by decide) rfl (by decide)

/-- C9 counterexample: discovery does raise for an unparseable resource
URL — `new URL('')` throws outside every try/catch in
`fetchProtectedResourceMetadata`, so `discoverOAuthMetadata` propagates
the error to its caller instead of degrading. -/
theorem c9_counterexample :
    discoverOAuthMetadata (fun _ => .networkError "net down")
        (fun _ => .networkError "net down") "" = .error "Invalid URL" := rfl

/-- C9 amended: for a parseable resource URL, once stage 1 yields no
accepted protected-resource metadata — for any of the claim's failure
patterns: network error, non-OK status, malformed body, SSRF-blocked
target, or validation rejection, all of which produce the `.ok (none, _)`
hypothesis — discovery does not raise: it degrades to the stage-2
authorization-server fetch, and if that fails too the result is the
bundle tagged `none`. -/
theorem c9_discovery_degrades_amended :
    ∀ (netP : String → FetchResult ProtectedResourceMetadata)
      (netA : String → FetchResult AuthorizationServerMetadata)
      (s : String) (u : Url) (reqs1 : List String),
      parseUrl s = some u →
      fetchProtectedResourceMetadata netP s = .ok (none, reqs1) →
      ((fetchOAuthMetadataJson (netA (getMetadataUrl u)) = none →
        discoverOAuthMetadata netP netA s =
          .ok ({ discoverySource := .noneTag }, reqs1 ++ [getMetadataUrl u])) ∧
       (∀ asm : AuthorizationServerMetadata,
        fetchOAuthMetadataJson (netA (getMetadataUrl u)) = some asm →
        discoverOAuthMetadata netP netA s =
          .ok ({ authorizationServerMetadata := some asm,
                 effectiveScopes := nonemptyScopes asm.scopes_supported,
                 discoverySource := .authorizationServer }, reqs1 ++ [getMetadataUrl u]))) := by
  intro netP netA s u reqs1 hp hprm
  constructor
  · intro hna
    unfold discoverOAuthMetadata
    simp only [hprm]
    unfold discoverFallback fetchAuthorizationServerMetadata
    simp [hp, hna]
  · intro asm hna
    unfold discoverOAuthMetadata
    simp only [hprm]
    unfold discoverFallback fetchAuthorizationServerMetadata
    simp [hp, hna]

/-- C9 witness: with every fetch failing, discovery of a well-formed
resource URL returns the `none`-tagged bundle and the two attempted
metadata URLs, raising no error. -/
theorem c9_witness :
    discoverOAuthMetadata (fun _ => .networkError "a") (fun _ => .httpError 404)
        "https://example.com/api"
      = .ok ({ discoverySource := .noneTag },
             ["https://example.com/.well-known/oauth-protected-resource/api"]
               ++ ["https://example.com/.well-known/oauth-authorization-server"]) := by
  have h := c9_discovery_degrades_amended (fun _ => .networkError "a")
    (fun _ => .httpError 404) "https://example.com/api"
    { origin := "https://example.com", hostname := "example.com", pathname := "/api" }
    ["https://example.com/.well-known/oauth-protected-resource/api"]
    (by decide) rfl
  exact h.1 rfl

/-- Helper: a scope selected from an optional string tier is non-empty. -/
theorem scopeOfOptString_ne {x : Option String} {s : String}
    (h : scopeOfOptString x = some s) : s ≠ "" := by
  rcases x with _ | v
  · simp [scopeOfOptString] at h
  · by_cases hv : v = ""
    · simp [scopeOfOptString, hv] at h
    · simp only [scopeOfOptString, if_neg hv, Option.some.injEq] at h
      subst h
      exact hv

/-- Helper: joining a non-empty scope list other than `[""]` yields a
non-empty string. -/
theorem joinScopes_ne_empty {l : List String} (hne : l ≠ []) (hnot : l ≠ [""]) :
    joinScopes l ≠ "" := by
  match l, hne with
  | [s], _ =>
    intro h
    exact hnot (by simpa [joinScopes] using congrArg (fun x => [x]) h)
  | s :: r :: t, _ =>
    intro h
    have hlen := congrArg String.length h
    rw [show joinScopes (s :: r :: t) = s ++ " " ++ joinScopes (r :: t) from rfl,
      String.length_append, String.length_append] at hlen
    have h1 : (" " : String).length = 1 := rfl
    have h2 : ("" : String).length = 0 := rfl
    rw [h1, h2] at hlen
    omega

/-- Helper: a scope selected from a scopes_supported tier is non-empty
unless the array was exactly `[""]`. -/
theorem scopeOfScopeList_ne {x : Option (List String)} {s : String}
    (h : scopeOfScopeList x = some s) (hx : x ≠ some [""]) : s ≠ "" := by
  rcases x with _ | l
  · simp [scopeOfScopeList] at h
  · rcases l with _ | ⟨a, t⟩
    · simp [scopeOfScopeList] at h
    · rw [show scopeOfScopeList (some (a :: t)) = some (joinScopes (a :: t)) from rfl] at h
      rw [← Option.some.inj h]
      exact joinScopes_ne_empty (by simp) (fun hc => hx (by rw [hc]))

/-- C1 counterexample: a protected-resource `scopes_supported` of `[""]`
is a non-empty array (so it is not treated as absent), yet its
space-join is the empty string — the resolved scope is empty, refuting
"the resolved scope is always a non-empty string". -/
theorem c1_counterexample :
    getEffectiveScope none none (some [""]) none = "" ∧ ([""] : List String) ≠ [] :=
  ⟨rfl, by decide⟩

/-- C1 amended: the five-tier priority holds — a non-empty static scope
wins; otherwise a non-empty registration scope; otherwise a non-empty
protected-resource scopes_supported array, joined with spaces; otherwise a
non-empty authorization-server scopes_supported array; otherwise the
default "openid email profile" — with empty strings and empty arrays
falling through at every tier; and the resolved scope is non-empty except
in the corner case that the selected scopes_supported array is exactly
`[""]` (see the counterexample). -/
theorem c1_scope_priority_amended :
    (∀ (s : String) (rs : Option String) (ps qs : Option (List String)), s ≠ "" →
      getEffectiveScope (some s) rs ps qs = s) ∧
    (∀ (rs : Option String) (ps qs : Option (List String)),
      getEffectiveScope (some "") rs ps qs = getEffectiveScope none rs ps qs) ∧
    (∀ (r : String) (ps qs : Option (List String)), r ≠ "" →
      getEffectiveScope none (some r) ps qs = r) ∧
    (∀ (ps qs : Option (List String)),
      getEffectiveScope none (some "") ps qs = getEffectiveScope none none ps qs) ∧
    (∀ (l : List String) (qs : Option (List String)), l ≠ [] →
      getEffectiveScope none none (some l) qs = joinScopes l) ∧
    (∀ qs : Option (List String),
      getEffectiveScope none none (some []) qs = getEffectiveScope none none none qs) ∧
    (∀ l : List String, l ≠ [] →
      getEffectiveScope none none none (some l) = joinScopes l) ∧
    (getEffectiveScope none none none (some []) = "openid email profile") ∧
    (getEffectiveScope none none none none = "openid email profile") ∧
    (∀ (ss rs : Option String) (ps qs : Option (List String)),
      ps ≠ some [""] → qs ≠ some [""] → getEffectiveScope ss rs ps qs ≠ "") := by
  refine ⟨?_, fun _ _ _ => rfl, ?_, fun _ _ => rfl, ?_, fun _ => rfl, ?_, rfl, rfl, ?_⟩
  · intro s rs ps qs h
    simp [getEffectiveScope, scopeOfOptString, h]
  · intro r ps qs h
    simp [getEffectiveScope, scopeOfOptString, h]
  · intro l qs h
    cases l with
    | nil => exact absurd rfl h
    | cons a t => simp [getEffectiveScope, scopeOfOptString, scopeOfScopeList]
  · intro l h
    cases l with
    | nil => exact absurd rfl h
    | cons a t => simp [getEffectiveScope, scopeOfOptString, scopeOfScopeList]
  · intro ss rs ps qs hps hqs
    unfold getEffectiveScope
    rcases h1 : scopeOfOptString ss with _ | s1
    · rcases h2 : scopeOfOptString rs with _ | s2
      · rcases h3 : scopeOfScopeList ps with _ | s3
        · rcases h4 : scopeOfScopeList qs with _ | s4
          · decide
          · exact scopeOfScopeList_ne h4 hqs
        · exact scopeOfScopeList_ne h3 hps
      · exact scopeOfOptString_ne h2
    · exact scopeOfOptString_ne h1

/-- C1 witness: each tier selected at a concrete input, and a non-empty
resolution through the protected-resource tier. -/
theorem c1_witness :
    getEffectiveScope (some "custom read write") none
        (some ["protected:scope"]) (some ["auth:scope"]) = "custom read write" ∧
    getEffectiveScope none (some "openid email profile read:user") none none
      = "openid email profile read:user" ∧
    getEffectiveScope none none (some ["protected:priority3", "protected:new"]) none
      = joinScopes ["protected:priority3", "protected:new"] ∧
    getEffectiveScope none none none (some ["auth:priority4", "auth:fallback"])
      = joinScopes ["auth:priority4", "auth:fallback"] ∧
    getEffectiveScope (some "") none none none = "openid email profile" ∧
    getEffectiveScope none none (some ["api:read", "api:write"]) none ≠ "" := by
  have h := c1_scope_priority_amended
  refine ⟨h.1 "custom read write" none (some ["protected:scope"]) (some ["auth:scope"])
      (by decide),
    h.2.2.1 "openid email profile read:user" none none (by decide),
    h.2.2.2.2.1 ["protected:priority3", "protected:new"] none (by decide),
    h.2.2.2.2.2.2.1 ["auth:priority4", "auth:fallback"] (by decide), ?_, ?_⟩
  · rw [h.2.1 none none none]
    exact h.2.2.2.2.2.2.2.2.1
  · exact h.2.2.2.2.2.2.2.2.2 none none (some ["api:read", "api:write"]) none
      (by decide) (by decide)

/-- C6: TLS misconfiguration handling.  Requesting insecure mode while the
environment declares validation mandatory ("1" or "true") is the fatal
conflict — reported, non-zero exit, never silently resolved in either
direction and the variable untouched; with no conflict the relaxed value
"0" is applied for the duration of the call and the prior value restored
afterwards whatever the connection outcome; without insecure mode the
variable is never modified. -/
theorem c6_insecure_tls_handling :
    (∀ (v : String) (outcome : ConnectOutcome), strictTlsValue v = true →
      connectToRemoteServer (some v) true outcome = ⟨.fatalConflict, some v, some v⟩) ∧
    (strictTlsValue "1" = true ∧ strictTlsValue "true" = true ∧ strictTlsValue "0" = false) ∧
    (∀ (v : String) (outcome : ConnectOutcome), strictTlsValue v = false →
      connectToRemoteServer (some v) true outcome = ⟨.completed outcome, some "0", some v⟩) ∧
    (∀ outcome : ConnectOutcome,
      connectToRemoteServer none true outcome = ⟨.completed outcome, some "0", none⟩) ∧
    (∀ (env : Option String) (outcome : ConnectOutcome),
      connectToRemoteServer env false outcome = ⟨.completed outcome, env, env⟩) := by
  refine ⟨?_, by decide, ?_, fun _ => rfl, fun _ _ => rfl⟩
  · intro v outcome h
    simp [connectToRemoteServer, h]
  · intro v outcome h
    simp [connectToRemoteServer, h]

/-- C6 witness: the conflicts exercised by the tests ("1" and "true"), the
restore-on-error path with the variable initially unset, and the
untouched path without insecure mode. -/
theorem c6_witness :
    connectToRemoteServer (some "1") true .connected
      = ⟨.fatalConflict, some "1", some "1"⟩ ∧
    connectToRemoteServer (some "true") true (.connectionError "ECONNREFUSED")
      = ⟨.fatalConflict, some "true", some "true"⟩ ∧
    connectToRemoteServer none true (.connectionError "ECONNREFUSED")
      = ⟨.completed (.connectionError "ECONNREFUSED"), some "0", none⟩ ∧
    connectToRemoteServer (some "1") false .connected
      = ⟨.completed .connected, some "1", some "1"⟩ := by
  have h := c6_insecure_tls_handling
  exact ⟨h.1 "1" .connected rfl, h.1 "true" (.connectionError "ECONNREFUSED") rfl,
         h.2.2.2.1 (.connectionError "ECONNREFUSED"), h.2.2.2.2 (some "1") .connected⟩
